import Mathlib

/-!
Shallow embedding of the core of `Ramacropy/Ramacropy.py` (classes
`RamanSpectra` and `IRSpectra`): baseline guards, normalisation,
integration, peak reads and the transmission/absorbance unit
conversions.  Numeric data is modelled over `ℚ` (so that guards are
decidable and evaluable), except the logarithm/power based unit
conversions which are modelled over `ℝ`.

Python exceptions are modelled by an explicit outcome type carrying the
state of the object at the moment the call finished (normally or by an
uncaught exception), so that "the state is unchanged by the failed
call" is a provable statement.
-/

/-- Model of the Python exceptions the module raises: every error in this
file is a `ValueError` with the message string of the source. -/
inductive PyErr where
  | valueError (msg : String)
deriving DecidableEq

/-- Result of calling a Python method on an object of state type `σ`:
either the call raised an exception (the object being left in state `st`),
or it returned value `v` with the object in state `st`. -/
inductive Outcome (σ : Type) (α : Type) where
  | raised (e : PyErr) (st : σ)
  | returned (v : α) (st : σ)
deriving DecidableEq

/-- State of the object once the call has finished, whether it raised or
returned. -/
def Outcome.state {σ α : Type} : Outcome σ α → σ
  | .raised _ st => st
  | .returned _ st => st

/-- Whether the call raised an (uncaught) exception. -/
def Outcome.isRaised {σ α : Type} : Outcome σ α → Bool
  | .raised _ _ => true
  | .returned _ _ => false

/-- Model of `numpy`'s `.min()` on a nonempty 1-d array. -/
def listMin : List ℚ → ℚ
  | [] => 0
  | x :: xs => xs.foldl min x

/-- Model of `numpy`'s `.max()` on a nonempty 1-d array. -/
def listMax : List ℚ → ℚ
  | [] => 0
  | x :: xs => xs.foldl max x

/-- Index of the first occurrence of the minimum of a list (0 on the empty
list): the behaviour of `numpy.argmin`, which breaks ties by lowest index. -/
def firstMinIdx : List ℚ → ℕ
  | [] => 0
  | [_] => 0
  | x :: y :: ys =>
    if x ≤ (y :: ys).getD (firstMinIdx (y :: ys)) 0 then 0
    else firstMinIdx (y :: ys) + 1

/-- Model of `np.abs(arr - value).argmin()`, the nearest-index resolution
used throughout the source to turn physical bounds into array positions. -/
def np_argmin_abs (arr : List ℚ) (value : ℚ) : ℕ :=
  firstMinIdx (arr.map (fun x => |x - value|))

namespace Utils

/-- Trapezoidal sum of consecutive pairs with unit spacing
(`numpy.trapz` with `dx = 1`). -/
def trapSum : List ℚ → ℚ
  | x :: y :: rest => (x + y) / 2 + trapSum (y :: rest)
  | _ => 0

/-- Modelled from the spec: `integrate_area` lives in `Ramacropy/Utils.py`,
which is not under `src/`.  Per the spec it computes a trapezoid-rule
definite integral of the intensity column over the closed index interval
`[min(start_index, end_index), max(start_index, end_index)]` (unit
spacing, no abscissa argument). -/
def integrate_area (col : List ℚ) (start_pos end_pos : ℕ) : ℚ :=
  let lo := min start_pos end_pos
  let hi := max start_pos end_pos
  trapSum ((col.drop lo).take (hi - lo + 1))

/-- Modelled from the spec: `normalise_area` lives in `Ramacropy/Utils.py`,
which is not under `src/`.  Per the spec it divides every sample of the
column by the trapezoid-rule integral over the given index range. -/
def normalise_area (col : List ℚ) (start_pos end_pos : ℕ) : List ℚ :=
  let area := integrate_area col start_pos end_pos
  col.map (fun x => x / area)

/-- Modelled from the spec: `normalise_peak` lives in `Ramacropy/Utils.py`,
which is not under `src/`.  Per the spec it divides every sample of the
column by the value at the given index. -/
def normalise_peak (col : List ℚ) (peak_idx : ℕ) : List ℚ :=
  let p := col.getD peak_idx 0
  col.map (fun x => x / p)

end Utils

/-- Model of Python's `str.lower()` (used on the `method` argument of
`normalise`): lower-cases every character. -/
def pyLower (s : String) : String := ⟨s.data.map Char.toLower⟩

/-- The shape of the baseline generator `bline` from `Ramacropy/Utils.py`
(not under `src/`): given abscissa, one intensity column and the three
scalar parameters (coarsness, angle, offset) it produces a baseline curve.
The claims settled here hold for every such function, so it is kept as an
explicit parameter rather than fixed. -/
def BlineFn : Type := List ℚ → List ℚ → ℚ → ℚ → ℚ → List ℚ

/-- State of a `RamanSpectra` object: the fields of the Python class that
the core operations read or write.  `SpectralData` is kept as the list of
its columns (each a list of samples); `integral` is `none` until
`integrate` has stored it (modelling the attribute not existing yet). -/
structure RamanSpectra where
  RamanShift : List ℚ
  SpectralData : List (List ℚ)
  TimeStamp : List ℚ
  RawData : List (List ℚ)
  integral : Option (List ℚ) := none
deriving DecidableEq

/-- `RamanSpectra.baseline` (Ramacropy.py lines 168-196).  `blineFn` stands
for `Utils.bline`; `ib` is the triple `(angle, coarsness, offset)` an
interactive session would return (the interactive picker is an external
collaborator). -/
def RamanSpectra.baseline (blineFn : BlineFn) (ib : ℚ × ℚ × ℚ)
    (s : RamanSpectra) (coarsness angle offset : ℚ) (interactive : Bool) :
    Outcome RamanSpectra Unit :=
  if coarsness < 0 ∨ coarsness > 1 ∨ |angle| > 90 then
    .raised (.valueError "One of your arguments is out of bounds! Try again.") s
  else if interactive then
    let (a, c, o) := ib
    let data := s.SpectralData.map
      (fun col => List.zipWith (· - ·) col (blineFn s.RamanShift col c a o))
    .returned () { s with SpectralData := data }
  else if coarsness = 0 ∧ angle = 0 ∧ offset = 0 then
    -- prints a warning and returns without touching the data
    .returned () s
  else
    let data := s.SpectralData.map
      (fun col => List.zipWith (· - ·) col
        (blineFn s.RamanShift col coarsness angle offset))
    .returned () { s with SpectralData := data }

/-- `RamanSpectra.normalise` (Ramacropy.py lines 198-251).  `iA` and `iP`
stand for the values the interactive area/peak pickers would return; the
keyword arguments `start`, `end`, `peak` are modelled as `Option ℚ`
(`none` = keyword absent, in Python a `KeyError` caught by the `try`).
The duplicated bound check of the source (`bounds[1]` tested twice) is
reproduced verbatim. -/
def RamanSpectra.normalise (iA : ℚ × ℚ) (iP : ℚ) (s : RamanSpectra)
    (method : String) (interactive : Bool)
    (start? end? peak? : Option ℚ) : Outcome RamanSpectra Unit :=
  if ¬(pyLower method = "area" ∨ pyLower method = "peak") then
    .raised (.valueError "Not recognised type of method, either: area or peak") s
  else if interactive then
    if pyLower method = "area" then
      let start_pos := np_argmin_abs s.RamanShift iA.1
      let end_pos := np_argmin_abs s.RamanShift iA.2
      let data := s.SpectralData.map
        (fun col => Utils.normalise_area col start_pos end_pos)
      .returned () { s with SpectralData := data }
    else
      let peak_idx := np_argmin_abs s.RamanShift iP
      let data := s.SpectralData.map
        (fun col => Utils.normalise_peak col peak_idx)
      .returned () { s with SpectralData := data }
  else if pyLower method = "area" then
    match start?, end? with
    | some st, some en =>
      let b0 := min st en
      let b1 := max st en
      if (listMin s.RamanShift ≤ b1 ∧ b1 ≤ listMax s.RamanShift) ∧
         (listMin s.RamanShift ≤ b1 ∧ b1 ≤ listMax s.RamanShift) then
        let start_pos := np_argmin_abs s.RamanShift b0
        let end_pos := np_argmin_abs s.RamanShift b1
        let data := s.SpectralData.map
          (fun col => Utils.normalise_area col start_pos end_pos)
        .returned () { s with SpectralData := data }
      else
        .raised (.valueError "Your chosen start and end area values are out of bounds.") s
    | _, _ =>
      -- KeyError caught: prints a hint and returns with nothing changed
      .returned () s
  else
    match peak? with
    | some pk =>
      if pk < listMin s.RamanShift ∨ pk > listMax s.RamanShift then
        .raised (.valueError "The chosen peak position is out of bounds.") s
      else
        let peak_idx := np_argmin_abs s.RamanShift pk
        let data := s.SpectralData.map
          (fun col => Utils.normalise_peak col peak_idx)
        .returned () { s with SpectralData := data }
    | none => .returned () s

/-- `RamanSpectra.integrate` (Ramacropy.py lines 253-275).  `iI` is the
pair of bounds an interactive session would return (not sorted by the
source in that branch). -/
def RamanSpectra.integrate (iI : ℚ × ℚ) (s : RamanSpectra)
    (start_ end_ : ℚ) (interactive : Bool) : Outcome RamanSpectra Unit :=
  let b0 := if interactive then iI.1 else min start_ end_
  let b1 := if interactive then iI.2 else max start_ end_
  if ¬((listMin s.RamanShift ≤ b0 ∧ b0 ≤ listMax s.RamanShift) ∧
       (listMin s.RamanShift ≤ b1 ∧ b1 ≤ listMax s.RamanShift)) then
    .raised (.valueError "Your chosen start and end values are out of bounds!") s
  else
    let start_pos := np_argmin_abs s.RamanShift b0
    let end_pos := np_argmin_abs s.RamanShift b1
    let ints := s.SpectralData.map
      (fun col => Utils.integrate_area col start_pos end_pos)
    .returned () { s with integral := some ints }

/-- `RamanSpectra.spike_removal` (Ramacropy.py lines 390-398): applies
`savgol_filter` (from an external library, window 5, degree 2) to every
column in place; the filter itself is kept as a parameter. -/
def RamanSpectra.spike_removal (savgolFn : List ℚ → List ℚ)
    (s : RamanSpectra) : RamanSpectra :=
  { s with SpectralData := s.SpectralData.map savgolFn }

/-- Unit state of an `IRSpectra` object: `self.status` is either the
string `'%T'` (percent transmission) or `'Abs'` (absorbance). -/
inductive IRStatus where
  | T
  | Abs
deriving DecidableEq

/-- State of an `IRSpectra` object over a scalar type `α` (`ℚ` for the
decidable guard logic, `ℝ` for the logarithmic unit conversions).
`SpectralData` is a single column; `integral` and `peak` are `none` until
the corresponding operation has stored them. -/
structure IRSpectra (α : Type) where
  Wavenumbers : List α
  SpectralData : List α
  RawData : List α
  status : IRStatus
  integral : Option α := none
  peak : Option α := none
deriving DecidableEq

/-- `IRSpectra.baseline` (Ramacropy.py lines 621-651).  Note the source
line 642 `return ValueError(...)`: in the transmission state the method
returns the exception object as an ordinary value (modelled by the
`Option PyErr` return value) instead of raising it. -/
def IRSpectra.baseline (blineFn : BlineFn) (ib : ℚ × ℚ × ℚ)
    (s : IRSpectra ℚ) (coarsness angle offset : ℚ) (interactive : Bool) :
    Outcome (IRSpectra ℚ) (Option PyErr) :=
  if coarsness < 0 ∨ coarsness > 1 ∨ |angle| > 90 then
    .raised (.valueError "One of your arguments is out of bounds! Try again.") s
  else if s.status = .T then
    .returned (some (.valueError "Convert to Absorbance before applying a baseline")) s
  else if interactive then
    let (a, c, o) := ib
    let data := List.zipWith (· - ·) s.SpectralData
      (blineFn s.Wavenumbers s.SpectralData c a o)
    .returned none { s with SpectralData := data }
  else if coarsness = 0 ∧ angle = 0 ∧ offset = 0 then
    .raised (.valueError "Quit playing around, your baseline is empty") s
  else
    let data := List.zipWith (· - ·) s.SpectralData
      (blineFn s.Wavenumbers s.SpectralData coarsness angle offset)
    .returned none { s with SpectralData := data }

/-- `IRSpectra.integrate` (Ramacropy.py lines 653-676).  `iI` is the pair
of bounds an interactive session would return. -/
def IRSpectra.integrate (iI : ℚ × ℚ) (s : IRSpectra ℚ)
    (start_ end_ : ℚ) (interactive : Bool) : Outcome (IRSpectra ℚ) Unit :=
  if ¬(s.status = .Abs) then
    .raised (.valueError "Operation can only be performed in Absorbance") s
  else
    let b0 := if interactive then iI.1 else min start_ end_
    let b1 := if interactive then iI.2 else max start_ end_
    if ¬((listMin s.Wavenumbers ≤ b0 ∧ b0 ≤ listMax s.Wavenumbers) ∧
         (listMin s.Wavenumbers ≤ b1 ∧ b1 ≤ listMax s.Wavenumbers)) then
      .raised (.valueError "Your chosen start and end values are out of bounds!") s
    else
      let start_pos := np_argmin_abs s.Wavenumbers b0
      let end_pos := np_argmin_abs s.Wavenumbers b1
      let intg := Utils.integrate_area s.SpectralData start_pos end_pos
      .returned () { s with integral := some intg }

/-- `IRSpectra.spec_pos_val` (Ramacropy.py lines 678-700).  `iPk` is the
peak value an interactive session would return. -/
def IRSpectra.spec_pos_val (iPk : ℚ) (s : IRSpectra ℚ)
    (position : ℚ) (interactive : Bool) : Outcome (IRSpectra ℚ) Unit :=
  if ¬(s.status = .Abs) then
    .raised (.valueError "Operation can only be performed with Absorbance") s
  else if interactive then
    .returned () { s with peak := some iPk }
  else if listMin s.Wavenumbers ≤ position ∧ position ≤ listMax s.Wavenumbers then
    let peak_idx := np_argmin_abs s.Wavenumbers position
    .returned () { s with peak := some (s.SpectralData.getD peak_idx 0) }
  else
    .raised (.valueError "The chosen peak position is out of bounds.") s

/-- `IRSpectra.normalise_peak` (Ramacropy.py lines 837-862).  `iPk` is the
peak position an interactive session would return.  Note the strict
comparisons of line 856 and the `peak_wn == 0.0` rejection of line 854. -/
def IRSpectra.normalise_peak (iPk : ℚ) (s : IRSpectra ℚ)
    (peak_wn : ℚ) (interactive : Bool) : Outcome (IRSpectra ℚ) Unit :=
  if s.status = .T then
    .raised (.valueError "This operation is only available in absorbance mode") s
  else if interactive then
    let peak_idx := np_argmin_abs s.Wavenumbers iPk
    .returned () { s with SpectralData := Utils.normalise_peak s.SpectralData peak_idx }
  else if peak_wn = 0 then
    .raised (.valueError "Peak_wn parameter not given") s
  else if peak_wn ≤ listMin s.Wavenumbers ∨ peak_wn ≥ listMax s.Wavenumbers then
    .raised (.valueError "Peak_wn out of borders") s
  else
    let peak_idx := np_argmin_abs s.Wavenumbers peak_wn
    .returned () { s with SpectralData := Utils.normalise_peak s.SpectralData peak_idx }

/-- `IRSpectra.t_to_A` (Ramacropy.py lines 544-553): percent transmission
to absorbance, `A = -log10(T / 100)`, flipping `status` to absorbance;
raises when the data is already in absorbance. -/
noncomputable def IRSpectra.t_to_A (s : IRSpectra ℝ) : Outcome (IRSpectra ℝ) Unit :=
  if s.status = .T then
    let data := s.SpectralData.map (fun x => -Real.logb 10 (x / 100))
    .returned () { s with SpectralData := data, status := .Abs }
  else
    .raised (.valueError "Data is already in Absorbance") s

/-- `IRSpectra.A_to_t` (Ramacropy.py lines 555-564): absorbance to percent
transmission, `T = 100 * 10 ^ (-A)`, flipping `status` to transmission;
raises when the data is already in transmission. -/
noncomputable def IRSpectra.A_to_t (s : IRSpectra ℝ) : Outcome (IRSpectra ℝ) Unit :=
  if s.status = .Abs then
    let data := s.SpectralData.map (fun x => 100 * (10 : ℝ) ^ (-x))
    .returned () { s with SpectralData := data, status := .T }
  else
    .raised (.valueError "Data is already in Transmission") s

/-- One mutating call on a `RamanSpectra` object, with all its arguments
(including the stand-ins for `Utils.bline`, `savgol_filter` and the
interactive pickers), for reasoning about arbitrary operation sequences. -/
inductive RamanOp where
  | baseline (blineFn : BlineFn) (ib : ℚ × ℚ × ℚ) (c a o : ℚ) (i : Bool)
  | normalise (iA : ℚ × ℚ) (iP : ℚ) (method : String) (i : Bool)
      (start? end? peak? : Option ℚ)
  | spike_removal (savgolFn : List ℚ → List ℚ)
  | integrate (iI : ℚ × ℚ) (st en : ℚ) (i : Bool)

/-- State of the object after the call, whether it raised or returned. -/
def RamanOp.apply : RamanOp → RamanSpectra → RamanSpectra
  | .baseline f ib c a o i, s => (RamanSpectra.baseline f ib s c a o i).state
  | .normalise iA iP m i st en pk, s =>
      (RamanSpectra.normalise iA iP s m i st en pk).state
  | .spike_removal f, s => RamanSpectra.spike_removal f s
  | .integrate iI st en i, s => (RamanSpectra.integrate iI s st en i).state

/-- A sequence of calls applied left to right. -/
def applyRamanOps (ops : List RamanOp) (s : RamanSpectra) : RamanSpectra :=
  ops.foldl (fun st op => op.apply st) s

/-- One mutating call on an `IRSpectra ℚ` object. -/
inductive IROp where
  | baseline (blineFn : BlineFn) (ib : ℚ × ℚ × ℚ) (c a o : ℚ) (i : Bool)
  | normalise_peak (iPk : ℚ) (pw : ℚ) (i : Bool)
  | spec_pos_val (iPk : ℚ) (pos : ℚ) (i : Bool)
  | integrate (iI : ℚ × ℚ) (st en : ℚ) (i : Bool)

/-- State of the object after the call, whether it raised or returned. -/
def IROp.apply : IROp → IRSpectra ℚ → IRSpectra ℚ
  | .baseline f ib c a o i, s => (IRSpectra.baseline f ib s c a o i).state
  | .normalise_peak iPk pw i, s => (IRSpectra.normalise_peak iPk s pw i).state
  | .spec_pos_val iPk p i, s => (IRSpectra.spec_pos_val iPk s p i).state
  | .integrate iI st en i, s => (IRSpectra.integrate iI s st en i).state

/-- A sequence of calls applied left to right. -/
def applyIROps (ops : List IROp) (s : IRSpectra ℚ) : IRSpectra ℚ :=
  ops.foldl (fun st op => op.apply st) s

/-- One unit-conversion call on an `IRSpectra ℝ` object. -/
inductive IRConvOp where
  | t_to_A
  | A_to_t

/-- State of the object after the conversion, whether it raised or
returned. -/
noncomputable def IRConvOp.apply : IRConvOp → IRSpectra ℝ → IRSpectra ℝ
  | .t_to_A, s => s.t_to_A.state
  | .A_to_t, s => s.A_to_t.state

/-- A sequence of conversions applied left to right. -/
noncomputable def applyIRConvOps (ops : List IRConvOp) (s : IRSpectra ℝ) :
    IRSpectra ℝ :=
  ops.foldl (fun st op => op.apply st) s

lemma ramanOp_apply_RawData (op : RamanOp) (s : RamanSpectra) :
    (op.apply s).RawData = s.RawData := by
  cases op with
  | baseline f ib c a o i =>
    simp only [RamanOp.apply, RamanSpectra.baseline]
    repeat' split
    all_goals rfl
  | normalise iA iP m i st en pk =>
    simp only [RamanOp.apply, RamanSpectra.normalise]
    repeat' split
    all_goals rfl
  | spike_removal f => rfl
  | integrate iI st en i =>
    simp only [RamanOp.apply, RamanSpectra.integrate]
    repeat' split
    all_goals rfl

lemma irOp_apply_RawData (op : IROp) (s : IRSpectra ℚ) :
    (op.apply s).RawData = s.RawData := by
  cases op with
  | baseline f ib c a o i =>
    simp only [IROp.apply, IRSpectra.baseline]
    repeat' split
    all_goals rfl
  | normalise_peak iPk pw i =>
    simp only [IROp.apply, IRSpectra.normalise_peak]
    repeat' split
    all_goals rfl
  | spec_pos_val iPk p i =>
    simp only [IROp.apply, IRSpectra.spec_pos_val]
    repeat' split
    all_goals rfl
  | integrate iI st en i =>
    simp only [IROp.apply, IRSpectra.integrate]
    repeat' split
    all_goals rfl

lemma irConvOp_apply_RawData (op : IRConvOp) (s : IRSpectra ℝ) :
    (op.apply s).RawData = s.RawData := by
  cases op with
  | t_to_A =>
    simp only [IRConvOp.apply, IRSpectra.t_to_A]
    repeat' split
    all_goals rfl
  | A_to_t =>
    simp only [IRConvOp.apply, IRSpectra.A_to_t]
    repeat' split
    all_goals rfl

lemma applyRamanOps_RawData (ops : List RamanOp) (s : RamanSpectra) :
    (applyRamanOps ops s).RawData = s.RawData := by
  induction ops generalizing s with
  | nil => rfl
  | cons op rest ih =>
    simpa [applyRamanOps, List.foldl_cons] using
      (ih (op.apply s)).trans (ramanOp_apply_RawData op s)

lemma applyIROps_RawData (ops : List IROp) (s : IRSpectra ℚ) :
    (applyIROps ops s).RawData = s.RawData := by
  induction ops generalizing s with
  | nil => rfl
  | cons op rest ih =>
    simpa [applyIROps, List.foldl_cons] using
      (ih (op.apply s)).trans (irOp_apply_RawData op s)

lemma applyIRConvOps_RawData (ops : List IRConvOp) (s : IRSpectra ℝ) :
    (applyIRConvOps ops s).RawData = s.RawData := by
  induction ops generalizing s with
  | nil => rfl
  | cons op rest ih =>
    simpa [applyIRConvOps, List.foldl_cons] using
      (ih (op.apply s)).trans (irConvOp_apply_RawData op s)

lemma firstMinIdx_lt_length : ∀ (l : List ℚ), l ≠ [] → firstMinIdx l < l.length
  | [], h => absurd rfl h
  | [_], _ => by simp [firstMinIdx]
  | x :: y :: ys, _ => by
    simp only [firstMinIdx]
    split
    · simp
    · have h := firstMinIdx_lt_length (y :: ys) (by simp)
      simpa [Nat.succ_lt_succ_iff] using h

lemma firstMinIdx_le : ∀ (l : List ℚ) (j : ℕ), j < l.length →
    l.getD (firstMinIdx l) 0 ≤ l.getD j 0
  | [], j, hj => by simp at hj
  | [x], j, hj => by
    have hj0 : j = 0 := by simpa using Nat.lt_one_iff.mp (by simpa using hj)
    subst hj0
    simp [firstMinIdx]
  | x :: y :: ys, j, hj => by
    simp only [firstMinIdx]
    split
    case isTrue h =>
      cases j with
      | zero => simp
      | succ k =>
        have hk : k < (y :: ys).length := by
          simpa [Nat.succ_lt_succ_iff] using hj
        exact le_trans h (firstMinIdx_le (y :: ys) k hk)
    case isFalse h =>
      have hv : (y :: ys).getD (firstMinIdx (y :: ys)) 0 < x := lt_of_not_le h
      cases j with
      | zero => exact le_of_lt hv
      | succ k =>
        have hk : k < (y :: ys).length := by
          simpa [Nat.succ_lt_succ_iff] using hj
        exact firstMinIdx_le (y :: ys) k hk

lemma firstMinIdx_first : ∀ (l : List ℚ) (j : ℕ), j < firstMinIdx l →
    l.getD (firstMinIdx l) 0 < l.getD j 0
  | [], j, hj => by simp [firstMinIdx] at hj
  | [_], j, hj => by simp [firstMinIdx] at hj
  | x :: y :: ys, j, hj => by
    simp only [firstMinIdx] at hj ⊢
    split
    case isTrue h =>
      rw [if_pos h] at hj
      exact absurd hj (Nat.not_lt_zero j)
    case isFalse h =>
      rw [if_neg h] at hj
      have hv : (y :: ys).getD (firstMinIdx (y :: ys)) 0 < x := lt_of_not_le h
      cases j with
      | zero => exact hv
      | succ k =>
        exact firstMinIdx_first (y :: ys) k (Nat.lt_of_succ_lt_succ hj)

lemma getD_map_abs (a : List ℚ) (v : ℚ) (j : ℕ) (hj : j < a.length) :
    (a.map (fun x => |x - v|)).getD j 0 = |a.getD j 0 - v| := by
  rw [List.getD_eq_getElem _ _ (by simpa using hj),
      List.getD_eq_getElem _ _ hj, List.getElem_map]

/-- Boolean test that adjacent samples strictly increase. -/
def strictIncrB : List ℚ → Bool
  | [] => true
  | [_] => true
  | x :: y :: ys => decide (x < y) && strictIncrB (y :: ys)

/-- Boolean test that adjacent samples strictly decrease. -/
def strictDecrB : List ℚ → Bool
  | [] => true
  | [_] => true
  | x :: y :: ys => decide (y < x) && strictDecrB (y :: ys)

/-- A strictly increasing abscissa. -/
def StrictIncr (l : List ℚ) : Prop := strictIncrB l = true

/-- A strictly decreasing abscissa. -/
def StrictDecr (l : List ℚ) : Prop := strictDecrB l = true

instance (l : List ℚ) : Decidable (StrictIncr l) :=
  inferInstanceAs (Decidable (strictIncrB l = true))

instance (l : List ℚ) : Decidable (StrictDecr l) :=
  inferInstanceAs (Decidable (strictDecrB l = true))

lemma strictIncr_chain : ∀ (l : List ℚ), StrictIncr l → List.Chain' (· < ·) l
  | [], _ => List.chain'_nil
  | [x], _ => List.chain'_singleton x
  | x :: y :: ys, h => by
    unfold StrictIncr strictIncrB at h
    rw [Bool.and_eq_true, decide_eq_true_iff] at h
    exact List.chain'_cons.mpr ⟨h.1, strictIncr_chain (y :: ys) h.2⟩

lemma strictDecr_chain : ∀ (l : List ℚ), StrictDecr l → List.Chain' (· > ·) l
  | [], _ => List.chain'_nil
  | [x], _ => List.chain'_singleton x
  | x :: y :: ys, h => by
    unfold StrictDecr strictDecrB at h
    rw [Bool.and_eq_true, decide_eq_true_iff] at h
    exact List.chain'_cons.mpr ⟨h.1, strictDecr_chain (y :: ys) h.2⟩

lemma strictMono_getD_injective (a : List ℚ)
    (hmono : StrictIncr a ∨ StrictDecr a) (i j : ℕ)
    (hi : i < a.length) (hj : j < a.length) (hij : i ≠ j) :
    a.getD i 0 ≠ a.getD j 0 := by
  have key : ∀ p q : ℕ, ∀ hp : p < a.length, ∀ hq : q < a.length,
      p < q → a.getD p 0 ≠ a.getD q 0 := by
    intro p q hp hq hpq
    rw [List.getD_eq_getElem _ _ hp, List.getD_eq_getElem _ _ hq]
    rcases hmono with h | h
    · have hpw := List.chain'_iff_pairwise.mp (strictIncr_chain a h)
      have hlt := List.pairwise_iff_get.mp hpw ⟨p, hp⟩ ⟨q, hq⟩ hpq
      exact ne_of_lt hlt
    · have hpw := List.chain'_iff_pairwise.mp (strictDecr_chain a h)
      have hlt := List.pairwise_iff_get.mp hpw ⟨p, hp⟩ ⟨q, hq⟩ hpq
      exact ne_of_gt hlt
  rcases Nat.lt_or_ge i j with h | h
  · exact key i j hi hj h
  · have hji : j < i := lt_of_le_of_ne h (Ne.symm hij)
    exact (key j i hj hi hji).symm

/-- A trivial stand-in baseline generator, used only to instantiate
universally quantified statements at concrete inputs. -/
def bfn0 : BlineFn := fun _ _ _ _ _ => []

/-- A small concrete Raman spectrum (the spectrum of the spec's worked
integration example). -/
def sampleRaman : RamanSpectra :=
  { RamanShift := [0, 1, 2, 3, 4]
    SpectralData := [[0, 2, 4, 2, 0]]
    TimeStamp := [0]
    RawData := [[0, 2, 4, 2, 0]]
    integral := none }

/-- A small concrete IR spectrum still in percent transmission. -/
def sampleIRT : IRSpectra ℚ :=
  { Wavenumbers := [0, 1, 2]
    SpectralData := [1, 2, 3]
    RawData := [1, 2, 3]
    status := .T
    integral := none
    peak := none }

/-- A small concrete IR spectrum in absorbance. -/
def sampleIRAbs : IRSpectra ℚ :=
  { Wavenumbers := [1, 2, 3]
    SpectralData := [1, 1, 1]
    RawData := [1, 1, 1]
    status := .Abs
    integral := none
    peak := none }

/-- C1: for an IR spectrum in transmission, `baseline` with in-bounds
parameters does NOT raise: line 642 of the source executes
`return ValueError(...)`, so the exception object is handed back as the
ordinary return value (here the `Option PyErr` payload of a `returned`
outcome) and the intensity is left unchanged.  This evaluates the
embedded code at a concrete failing input, exhibiting the divergence
from the claim (which demands a raised error). -/
theorem C1_transmission_baseline_returns_error_object :
    IRSpectra.baseline bfn0 (0, 0, 0) sampleIRT 1 0 0 false =
      .returned (some (.valueError "Convert to Absorbance before applying a baseline"))
        sampleIRT := by
  decide

/-- C2: the area-normalisation bound check of `RamanSpectra.normalise`
tests `bounds[1]` twice (source line 230), so a call whose smaller sorted
bound (-10) is below `min(abscissa)` while the larger bound (2) is in
range does NOT raise: it proceeds and rescales the intensity.  This
evaluates the embedded code at that failing input: the outcome is a
normal return with mutated spectral data, where the claim demands an
`OutOfBounds` raise before any mutation. -/
theorem C2_area_bound_check_defect_proceeds :
    RamanSpectra.normalise (0, 0) 0 sampleRaman "area" false
        (some (-10)) (some 2) none =
      .returned () { sampleRaman with SpectralData := [[0, 1/2, 1, 1/2, 0]] } := by
  have harea : pyLower "area" = "area" := by decide
  norm_num [RamanSpectra.normalise, harea, sampleRaman, np_argmin_abs, firstMinIdx,
    listMin, listMax, Utils.normalise_area, Utils.integrate_area, Utils.trapSum,
    abs_of_nonneg, abs_of_nonpos, min_def, max_def]

/-- C4: for both classes, a `baseline` call whose coarsness lies outside
`[0, 1]` or whose angle exceeds 90 in absolute value raises the
out-of-bounds `ValueError` as its very first action, for every spectrum,
every parameter source (interactive or not) and every baseline generator,
and the state carried by the raised outcome is the unchanged input
state. -/
theorem C4_baseline_out_of_bounds_params_raise :
    ∀ (f : BlineFn) (ib : ℚ × ℚ × ℚ) (c a o : ℚ) (i : Bool),
      (c < 0 ∨ c > 1 ∨ |a| > 90) →
      (∀ s : RamanSpectra, RamanSpectra.baseline f ib s c a o i =
        .raised (.valueError "One of your arguments is out of bounds! Try again.") s) ∧
      (∀ s : IRSpectra ℚ, IRSpectra.baseline f ib s c a o i =
        .raised (.valueError "One of your arguments is out of bounds! Try again.") s) := by
  intro f ib c a o i h
  constructor
  · intro s
    simp only [RamanSpectra.baseline]
    rw [if_pos h]
  · intro s
    simp only [IRSpectra.baseline]
    rw [if_pos h]

/-- Witness for C4 at a concrete input: coarsness 2 is out of bounds and
both baseline calls raise, leaving the sample spectra unchanged. -/
theorem C4_baseline_out_of_bounds_params_raise_witness :
    RamanSpectra.baseline bfn0 (0, 0, 0) sampleRaman 2 0 0 false =
      .raised (.valueError "One of your arguments is out of bounds! Try again.")
        sampleRaman ∧
    IRSpectra.baseline bfn0 (0, 0, 0) sampleIRAbs 2 0 0 false =
      .raised (.valueError "One of your arguments is out of bounds! Try again.")
        sampleIRAbs :=
  ⟨(C4_baseline_out_of_bounds_params_raise bfn0 (0, 0, 0) 2 0 0 false
      (by norm_num)).1 sampleRaman,
   (C4_baseline_out_of_bounds_params_raise bfn0 (0, 0, 0) 2 0 0 false
      (by norm_num)).2 sampleIRAbs⟩

/-- C5 counterexample: on an IR spectrum in absorbance, a baseline call
with all-zero parameters and `interactive = false` RAISES a `ValueError`
(source line 647) instead of returning with only a printed warning, so
the claim does not hold for every spectrum. -/
theorem C5_counterexample_ir_all_zero_raises :
    IRSpectra.baseline bfn0 (0, 0, 0) sampleIRAbs 0 0 0 false =
      .raised (.valueError "Quit playing around, your baseline is empty")
        sampleIRAbs := by
  decide

/-- C5 (amended): an all-zero baseline request with `interactive = false`
never subtracts anything; for a `RamanSpectra` it is rejected with only a
printed warning and returns normally with intensity unchanged, while for
an `IRSpectra` in absorbance it raises a `ValueError` (leaving intensity
unchanged as well). -/
theorem C5_all_zero_baseline_guard :
    (∀ (f : BlineFn) (ib : ℚ × ℚ × ℚ) (s : RamanSpectra),
       RamanSpectra.baseline f ib s 0 0 0 false = .returned () s) ∧
    (∀ (f : BlineFn) (ib : ℚ × ℚ × ℚ) (s : IRSpectra ℚ), s.status = .Abs →
       IRSpectra.baseline f ib s 0 0 0 false =
         .raised (.valueError "Quit playing around, your baseline is empty") s) := by
  have hg : ¬((0 : ℚ) < 0 ∨ (0 : ℚ) > 1 ∨ |(0 : ℚ)| > 90) := by decide
  constructor
  · intro f ib s
    simp only [RamanSpectra.baseline]
    rw [if_neg hg, if_neg Bool.false_ne_true]
    simp
  · intro f ib s h
    have hT : ¬(s.status = IRStatus.T) := by rw [h]; exact fun hc => nomatch hc
    simp only [IRSpectra.baseline]
    rw [if_neg hg, if_neg hT, if_neg Bool.false_ne_true]
    simp

/-- Witness for C5 (amended) at concrete inputs: the Raman sample returns
unchanged, the absorbance IR sample raises. -/
theorem C5_all_zero_baseline_guard_witness :
    RamanSpectra.baseline bfn0 (0, 0, 0) sampleRaman 0 0 0 false =
      .returned () sampleRaman ∧
    IRSpectra.baseline bfn0 (0, 0, 0) sampleIRAbs 0 0 0 false =
      .raised (.valueError "Quit playing around, your baseline is empty")
        sampleIRAbs :=
  ⟨C5_all_zero_baseline_guard.1 bfn0 (0, 0, 0) sampleRaman,
   C5_all_zero_baseline_guard.2 bfn0 (0, 0, 0) sampleIRAbs rfl⟩

/-- C3 counterexample: an IR spectrum still in transmission, integrated
with bounds far outside the abscissa range, raises the absorbance-state
`ValueError` of source line 664 — a different error than the
out-of-bounds one the claim promises (the two messages differ). -/
theorem C3_counterexample_transmission_state_error_first :
    IRSpectra.integrate (0, 0) sampleIRT 10 20 false =
      .raised (.valueError "Operation can only be performed in Absorbance")
        sampleIRT ∧
    PyErr.valueError "Operation can only be performed in Absorbance" ≠
      PyErr.valueError "Your chosen start and end values are out of bounds!" := by
  constructor
  · decide
  · decide

/-- C3 (amended): for every Raman spectrum, and for every IR spectrum in
absorbance, an `integrate` call with `interactive = false` and a bound
outside `[min(abscissa), max(abscissa)]` raises the out-of-bounds
`ValueError` and leaves the whole state — in particular the `integral`
attribute — unchanged (an IR spectrum still in transmission instead fails
earlier with the absorbance-state error). -/
theorem C3_integrate_out_of_bounds_raises :
    (∀ (iI : ℚ × ℚ) (s : RamanSpectra) (st en : ℚ),
       (¬(listMin s.RamanShift ≤ st ∧ st ≤ listMax s.RamanShift) ∨
        ¬(listMin s.RamanShift ≤ en ∧ en ≤ listMax s.RamanShift)) →
       RamanSpectra.integrate iI s st en false =
         .raised (.valueError "Your chosen start and end values are out of bounds!") s) ∧
    (∀ (iI : ℚ × ℚ) (s : IRSpectra ℚ) (st en : ℚ), s.status = .Abs →
       (¬(listMin s.Wavenumbers ≤ st ∧ st ≤ listMax s.Wavenumbers) ∨
        ¬(listMin s.Wavenumbers ≤ en ∧ en ≤ listMax s.Wavenumbers)) →
       IRSpectra.integrate iI s st en false =
         .raised (.valueError "Your chosen start and end values are out of bounds!") s) := by
  constructor
  · intro iI s st en h
    have hcond : ¬((listMin s.RamanShift ≤ min st en ∧ min st en ≤ listMax s.RamanShift) ∧
        (listMin s.RamanShift ≤ max st en ∧ max st en ≤ listMax s.RamanShift)) := by
      rintro ⟨⟨h1a, _⟩, ⟨_, h2b⟩⟩
      have hst : listMin s.RamanShift ≤ st ∧ st ≤ listMax s.RamanShift :=
        ⟨le_trans h1a (min_le_left st en), le_trans (le_max_left st en) h2b⟩
      have hen : listMin s.RamanShift ≤ en ∧ en ≤ listMax s.RamanShift :=
        ⟨le_trans h1a (min_le_right st en), le_trans (le_max_right st en) h2b⟩
      rcases h with h | h
      · exact h hst
      · exact h hen
    simp only [RamanSpectra.integrate, Bool.false_eq_true, if_false]
    rw [if_pos hcond]
  · intro iI s st en hA h
    have hcond : ¬((listMin s.Wavenumbers ≤ min st en ∧ min st en ≤ listMax s.Wavenumbers) ∧
        (listMin s.Wavenumbers ≤ max st en ∧ max st en ≤ listMax s.Wavenumbers)) := by
      rintro ⟨⟨h1a, _⟩, ⟨_, h2b⟩⟩
      have hst : listMin s.Wavenumbers ≤ st ∧ st ≤ listMax s.Wavenumbers :=
        ⟨le_trans h1a (min_le_left st en), le_trans (le_max_left st en) h2b⟩
      have hen : listMin s.Wavenumbers ≤ en ∧ en ≤ listMax s.Wavenumbers :=
        ⟨le_trans h1a (min_le_right st en), le_trans (le_max_right st en) h2b⟩
      rcases h with h | h
      · exact h hst
      · exact h hen
    have hA2 : ¬¬(s.status = IRStatus.Abs) := fun hc => hc hA
    simp only [IRSpectra.integrate, Bool.false_eq_true, if_false]
    rw [if_neg hA2, if_pos hcond]

/-- Witness for C3 (amended) at concrete inputs: bounds 10 and 20 lie
outside both sample abscissas, and both calls raise the out-of-bounds
error with the state unchanged. -/
theorem C3_integrate_out_of_bounds_raises_witness :
    RamanSpectra.integrate (0, 0) sampleRaman 10 20 false =
      .raised (.valueError "Your chosen start and end values are out of bounds!")
        sampleRaman ∧
    IRSpectra.integrate (0, 0) sampleIRAbs 10 20 false =
      .raised (.valueError "Your chosen start and end values are out of bounds!")
        sampleIRAbs :=
  ⟨C3_integrate_out_of_bounds_raises.1 (0, 0) sampleRaman 10 20 (by decide),
   C3_integrate_out_of_bounds_raises.2 (0, 0) sampleIRAbs 10 20 rfl (by decide)⟩

/-- C10: a non-interactive `RamanSpectra.normalise` call whose required
keyword arguments are absent (`start` or `end` for the area method, `peak`
for the peak method — the `KeyError` is caught, a hint is printed and the
method returns) returns normally with the whole state, in particular the
intensity, unchanged. -/
theorem C10_normalise_missing_kwargs_silent_noop :
    (∀ (iA : ℚ × ℚ) (iP : ℚ) (s : RamanSpectra) (end? peak? : Option ℚ),
       RamanSpectra.normalise iA iP s "area" false none end? peak? =
         .returned () s) ∧
    (∀ (iA : ℚ × ℚ) (iP : ℚ) (s : RamanSpectra) (start_ : ℚ) (peak? : Option ℚ),
       RamanSpectra.normalise iA iP s "area" false (some start_) none peak? =
         .returned () s) ∧
    (∀ (iA : ℚ × ℚ) (iP : ℚ) (s : RamanSpectra) (start? end? : Option ℚ),
       RamanSpectra.normalise iA iP s "peak" false start? end? none =
         .returned () s) := by
  have harea : pyLower "area" = "area" := by decide
  have hpeak : pyLower "peak" = "peak" := by decide
  have hap : ¬(pyLower "peak" = "area") := by decide
  refine ⟨fun iA iP s en pk => ?_, fun iA iP s st pk => ?_, fun iA iP s st en => ?_⟩
  · simp [RamanSpectra.normalise, harea]
  · simp [RamanSpectra.normalise, harea]
  · simp [RamanSpectra.normalise, hpeak, hap]

/-- C9: no mutating operation ever touches the raw snapshot: for every
sequence of `RamanSpectra` operations (baseline, normalise,
spike-removal, integrate), every sequence of `IRSpectra` operations
(baseline, peak normalisation, peak read, integrate) and every sequence
of unit conversions, the `RawData` field after the sequence equals its
value at load time, whether the individual calls raised or returned. -/
theorem C9_RawData_never_modified :
    (∀ (ops : List RamanOp) (s : RamanSpectra),
       (applyRamanOps ops s).RawData = s.RawData) ∧
    (∀ (ops : List IROp) (s : IRSpectra ℚ),
       (applyIROps ops s).RawData = s.RawData) ∧
    (∀ (ops : List IRConvOp) (s : IRSpectra ℝ),
       (applyIRConvOps ops s).RawData = s.RawData) :=
  ⟨applyRamanOps_RawData, applyIROps_RawData, applyIRConvOps_RawData⟩

/-- C6 counterexample: `IRSpectra.normalise_peak` rejects a position equal
to `min(abscissa)`: on the absorbance sample with wavenumbers `[1, 2, 3]`,
position 1 (the minimum, inside the closed interval) raises the border
`ValueError` (strict comparisons, source line 856), contradicting the
claim that every position in the closed interval is legal for every
peak-position operation. -/
theorem C6_counterexample_normalise_peak_rejects_min :
    IRSpectra.normalise_peak 0 sampleIRAbs 1 false =
      .raised (.valueError "Peak_wn out of borders") sampleIRAbs := by
  decide

/-- C6 (amended): for non-interactive peak-position operations the legal
domains differ per operation.  `RamanSpectra.normalise` (peak method) and
`IRSpectra.spec_pos_val` accept exactly the closed interval
`[min(abscissa), max(abscissa)]` — endpoints included — and raise the
out-of-bounds `ValueError` outside it; `IRSpectra.normalise_peak` instead
demands a position strictly inside the open interval and different from
0.0, raising on the endpoints, outside, and on the 0.0 sentinel. -/
theorem C6_peak_position_bounds :
    (∀ (iA : ℚ × ℚ) (iP : ℚ) (s : RamanSpectra) (pk : ℚ),
       (listMin s.RamanShift ≤ pk ∧ pk ≤ listMax s.RamanShift →
         (RamanSpectra.normalise iA iP s "peak" false none none (some pk)).isRaised
           = false) ∧
       (pk < listMin s.RamanShift ∨ pk > listMax s.RamanShift →
         RamanSpectra.normalise iA iP s "peak" false none none (some pk) =
           .raised (.valueError "The chosen peak position is out of bounds.") s)) ∧
    (∀ (iPk : ℚ) (s : IRSpectra ℚ) (p : ℚ), s.status = .Abs →
       (listMin s.Wavenumbers ≤ p ∧ p ≤ listMax s.Wavenumbers →
         (IRSpectra.spec_pos_val iPk s p false).isRaised = false) ∧
       (¬(listMin s.Wavenumbers ≤ p ∧ p ≤ listMax s.Wavenumbers) →
         IRSpectra.spec_pos_val iPk s p false =
           .raised (.valueError "The chosen peak position is out of bounds.") s)) ∧
    (∀ (iPk : ℚ) (s : IRSpectra ℚ) (p : ℚ), s.status = .Abs →
       (p ≠ 0 → listMin s.Wavenumbers < p → p < listMax s.Wavenumbers →
         (IRSpectra.normalise_peak iPk s p false).isRaised = false) ∧
       (p ≠ 0 → (p ≤ listMin s.Wavenumbers ∨ p ≥ listMax s.Wavenumbers) →
         IRSpectra.normalise_peak iPk s p false =
           .raised (.valueError "Peak_wn out of borders") s) ∧
       (p = 0 →
         IRSpectra.normalise_peak iPk s p false =
           .raised (.valueError "Peak_wn parameter not given") s)) := by
  have hpeak : pyLower "peak" = "peak" := by decide
  have hap : ¬(pyLower "peak" = "area") := by decide
  refine ⟨fun iA iP s pk => ⟨fun h => ?_, fun h => ?_⟩,
    fun iPk s p hA => ⟨fun h => ?_, fun h => ?_⟩,
    fun iPk s p hA => ⟨fun h0 h1 h2 => ?_, fun h0 h => ?_, fun h0 => ?_⟩⟩
  · have hno : ¬(pk < listMin s.RamanShift ∨ pk > listMax s.RamanShift) := by
      rintro (hc | hc)
      · exact absurd h.1 (not_le.mpr hc)
      · exact absurd h.2 (not_le.mpr hc)
    simp [RamanSpectra.normalise, hpeak, hap, hno, Outcome.isRaised]
  · simp only [RamanSpectra.normalise, hpeak, hap]
    rw [if_neg (by decide : ¬("peak" = "area")), if_pos h]
    simp
  · simp [IRSpectra.spec_pos_val, hA, h.1, h.2, Outcome.isRaised]
  · simp only [IRSpectra.spec_pos_val]
    rw [if_neg (by simp [hA]), if_neg Bool.false_ne_true, if_neg h]
  · have hnb : ¬(p ≤ listMin s.Wavenumbers ∨ p ≥ listMax s.Wavenumbers) := by
      push_neg
      exact ⟨h1, h2⟩
    simp [IRSpectra.normalise_peak, hA, h0, hnb, Outcome.isRaised]
  · simp only [IRSpectra.normalise_peak]
    rw [if_neg (by simp [hA]), if_neg Bool.false_ne_true, if_neg h0, if_pos h]
  · simp only [IRSpectra.normalise_peak]
    rw [if_neg (by simp [hA]), if_neg Bool.false_ne_true, if_pos h0]

/-- Witness for C6 (amended), instantiating every conjunct on the sample
spectra: the Raman peak method accepts position 0 (the abscissa minimum)
and rejects 10; `spec_pos_val` accepts 1 (the minimum) and rejects 10;
`normalise_peak` accepts 2 (strict interior), rejects the endpoint 3 and
rejects the 0.0 sentinel. -/
theorem C6_peak_position_bounds_witness :
    (RamanSpectra.normalise (0, 0) 0 sampleRaman "peak" false none none
      (some 0)).isRaised = false ∧
    RamanSpectra.normalise (0, 0) 0 sampleRaman "peak" false none none (some 10) =
      .raised (.valueError "The chosen peak position is out of bounds.")
        sampleRaman ∧
    (IRSpectra.spec_pos_val 0 sampleIRAbs 1 false).isRaised = false ∧
    IRSpectra.spec_pos_val 0 sampleIRAbs 10 false =
      .raised (.valueError "The chosen peak position is out of bounds.")
        sampleIRAbs ∧
    (IRSpectra.normalise_peak 0 sampleIRAbs 2 false).isRaised = false ∧
    IRSpectra.normalise_peak 0 sampleIRAbs 3 false =
      .raised (.valueError "Peak_wn out of borders") sampleIRAbs ∧
    IRSpectra.normalise_peak 0 sampleIRAbs 0 false =
      .raised (.valueError "Peak_wn parameter not given") sampleIRAbs :=
  ⟨(C6_peak_position_bounds.1 (0, 0) 0 sampleRaman 0).1 (by decide),
   (C6_peak_position_bounds.1 (0, 0) 0 sampleRaman 10).2 (by decide),
   (C6_peak_position_bounds.2.1 0 sampleIRAbs 1 rfl).1 (by decide),
   (C6_peak_position_bounds.2.1 0 sampleIRAbs 10 rfl).2 (by decide),
   (C6_peak_position_bounds.2.2 0 sampleIRAbs 2 rfl).1 (by decide) (by decide) (by decide),
   (C6_peak_position_bounds.2.2 0 sampleIRAbs 3 rfl).2.1 (by decide) (by decide),
   (C6_peak_position_bounds.2.2 0 sampleIRAbs 0 rfl).2.2 rfl⟩

/-- C7: for every IR spectrum in absorbance, `A_to_t` succeeds, `t_to_A`
on the result succeeds, and the final state equals the original one
exactly (in the real-number model the conversions
`x ↦ 100 * 10 ^ (-x)` and `x ↦ -log10(x / 100)` are exact inverses), so
both the intensity values and the `status` round-trip. -/
theorem C7_absorbance_transmission_round_trip (s : IRSpectra ℝ)
    (h : s.status = .Abs) :
    s.A_to_t.isRaised = false ∧
    s.A_to_t.state.t_to_A.isRaised = false ∧
    s.A_to_t.state.t_to_A.state = s := by
  obtain ⟨w, d, r, st, ig, pk⟩ := s
  simp only at h
  subst h
  have hx : ∀ x : ℝ, -Real.logb 10 ((100 * (10 : ℝ) ^ (-x)) / 100) = x := by
    intro x
    rw [mul_div_cancel_left₀ _ (by norm_num : (100 : ℝ) ≠ 0),
      Real.logb_rpow (by norm_num) (by norm_num), neg_neg]
  have hmap : d.map ((fun x => -Real.logb 10 (x / 100)) ∘
      (fun x => 100 * (10 : ℝ) ^ (-x))) = d := by
    have hcg := List.map_congr_left (l := d)
      (f := (fun x => -Real.logb 10 (x / 100)) ∘ (fun x => 100 * (10 : ℝ) ^ (-x)))
      (g := id) (fun x _ => hx x)
    simpa using hcg
  simp [IRSpectra.A_to_t, IRSpectra.t_to_A, Outcome.state, Outcome.isRaised,
    List.map_map, hmap]

/-- A concrete real-valued IR spectrum in absorbance, for instantiating
the round-trip statement. -/
noncomputable def sampleIRAbsR : IRSpectra ℝ :=
  { Wavenumbers := [1, 2, 3]
    SpectralData := [1, 2, 1]
    RawData := [1, 2, 1]
    status := .Abs
    integral := none
    peak := none }

/-- Witness for C7 at a concrete absorbance spectrum. -/
theorem C7_absorbance_transmission_round_trip_witness :
    sampleIRAbsR.A_to_t.isRaised = false ∧
    sampleIRAbsR.A_to_t.state.t_to_A.isRaised = false ∧
    sampleIRAbsR.A_to_t.state.t_to_A.state = sampleIRAbsR :=
  C7_absorbance_transmission_round_trip sampleIRAbsR rfl

/-- C8: nearest-index resolution.  First conjunct (idempotence): on a
strictly monotonic abscissa (increasing or decreasing), resolving the
abscissa value located at index `i` returns exactly `i`.  Second conjunct
(contract with tie-break): on any nonempty abscissa the resolved index is
in range, its sample is closest to the queried value by absolute
difference, and every strictly smaller index is strictly farther away —
so when two samples are equidistant the lowest index wins. -/
theorem C8_nearest_index_idempotent_first_tie :
    (∀ (a : List ℚ), (StrictIncr a ∨ StrictDecr a) → ∀ i, i < a.length →
       np_argmin_abs a (a.getD i 0) = i) ∧
    (∀ (a : List ℚ) (v : ℚ), a ≠ [] →
       np_argmin_abs a v < a.length ∧
       (∀ j, j < a.length →
          |a.getD (np_argmin_abs a v) 0 - v| ≤ |a.getD j 0 - v|) ∧
       (∀ j, j < np_argmin_abs a v →
          |a.getD (np_argmin_abs a v) 0 - v| < |a.getD j 0 - v|)) := by
  have core : ∀ (a : List ℚ) (v : ℚ), a ≠ [] →
      np_argmin_abs a v < a.length ∧
      (∀ j, j < a.length →
         |a.getD (np_argmin_abs a v) 0 - v| ≤ |a.getD j 0 - v|) ∧
      (∀ j, j < np_argmin_abs a v →
         |a.getD (np_argmin_abs a v) 0 - v| < |a.getD j 0 - v|) := by
    intro a v hne
    simp only [np_argmin_abs]
    have hdne : a.map (fun x => |x - v|) ≠ [] := by
      simpa using hne
    have hdlen : (a.map (fun x => |x - v|)).length = a.length := List.length_map a _
    have hfl : firstMinIdx (a.map (fun x => |x - v|)) < a.length := by
      have := firstMinIdx_lt_length (a.map (fun x => |x - v|)) hdne
      rwa [hdlen] at this
    refine ⟨hfl, fun j hj => ?_, fun j hj => ?_⟩
    · have hle := firstMinIdx_le (a.map (fun x => |x - v|)) j (by rwa [hdlen])
      rwa [getD_map_abs a v _ hfl, getD_map_abs a v j hj] at hle
    · have hjlen : j < a.length := lt_trans hj hfl
      have hlt := firstMinIdx_first (a.map (fun x => |x - v|)) j hj
      rwa [getD_map_abs a v _ hfl, getD_map_abs a v j hjlen] at hlt
  refine ⟨fun a hmono i hi => ?_, core⟩
  have hne : a ≠ [] := by
    intro hc
    rw [hc] at hi
    exact absurd hi (by simp)
  obtain ⟨hrlen, hle, _⟩ := core a (a.getD i 0) hne
  have hle_i := hle i hi
  rw [sub_self, abs_zero] at hle_i
  have h0 : |a.getD (np_argmin_abs a (a.getD i 0)) 0 - a.getD i 0| = 0 :=
    le_antisymm hle_i (abs_nonneg _)
  have heq : a.getD (np_argmin_abs a (a.getD i 0)) 0 = a.getD i 0 :=
    sub_eq_zero.mp (abs_eq_zero.mp h0)
  by_contra hcon
  exact strictMono_getD_injective a hmono _ i hrlen hi hcon heq

/-- Witness for C8 at concrete inputs: on the strictly increasing
abscissa `[0, 2, 4]`, resolving the value at index 1 returns 1, and for
the query 1 (equidistant from samples 0 and 2) the resolved index is in
range — by the theorem it is the lowest of the tied indices. -/
theorem C8_nearest_index_idempotent_first_tie_witness :
    np_argmin_abs [0, 2, 4] (([0, 2, 4] : List ℚ).getD 1 0) = 1 ∧
    np_argmin_abs [0, 2, 4] (1 : ℚ) < 3 :=
  ⟨C8_nearest_index_idempotent_first_tie.1 [0, 2, 4] (Or.inl (by decide)) 1
     (by decide),
   (C8_nearest_index_idempotent_first_tie.2 [0, 2, 4] 1 (by decide)).1⟩
